import Mathlib

/-!
Shallow embedding of the window snapshot and change-notification engine
implemented in `src/dwm_thumbnail.cc`, together with theorems settling the
specification claims about it.

Modelling conventions:
* A window handle (`HWND`) is a `Nat`; `0` is the null handle.
* All Win32 queries that the code performs are collected in a `World`
  structure of oracles (one field per API that the code consults).  A
  `World` is an arbitrary but fixed snapshot of the operating system, so
  every translated function is a pure function of the `World` and its
  explicit arguments.
* Unsigned 64-bit tick arithmetic (`GetTickCount64` differences on
  `ULONGLONG`) is modelled on `Nat` with explicit reduction modulo `2 ^ 64`.
* The pixel-producing parts of the capture pipeline (DWM thumbnail copy,
  Windows-Graphics-Capture frame, PrintWindow/BitBlt content and the PNG
  encoder) only determine the *bytes* of the resulting payload; they are
  modelled as oracle string results in `World`, while every branch, size
  computation and failure check of `src/dwm_thumbnail.cc` is translated
  explicitly.
* `std::tolower` over the UTF-8 bytes of a string is modelled with
  `Char.toLower` per character (the strings compared by the code are ASCII
  class names, titles and paths).
-/

namespace DwmSpec

set_option maxRecDepth 4000

/-- Window handle, as used throughout `dwm_thumbnail.cc`; `0` is NULL. -/
abbrev HWND := Nat

/-- A Win32 `RECT` (`left`, `top`, `right`, `bottom`). -/
structure Rect where
  left : Int
  top : Int
  right : Int
  bottom : Int
deriving DecidableEq, Repr

/-- `WS_EX_TOOLWINDOW` extended style bit. -/
def WS_EX_TOOLWINDOW : Nat := 0x00000080

/-- `WS_EX_NOACTIVATE` extended style bit. -/
def WS_EX_NOACTIVATE : Nat := 0x08000000

/-- `WS_EX_LAYERED` extended style bit. -/
def WS_EX_LAYERED : Nat := 0x00080000

/-- `WS_EX_APPWINDOW` extended style bit. -/
def WS_EX_APPWINDOW : Nat := 0x00040000

/-- `WS_CHILD` style bit. -/
def WS_CHILD : Nat := 0x40000000

/-- `WS_POPUP` style bit. -/
def WS_POPUP : Nat := 0x80000000

/-- `LWA_ALPHA` flag of `GetLayeredWindowAttributes`. -/
def LWA_ALPHA : Nat := 0x00000002

/-- `2 ^ 64`, the modulus of `ULONGLONG` arithmetic. -/
def W64 : Nat := 2 ^ 64

/-- Unsigned 64-bit subtraction `a - b` as performed on `ULONGLONG` tick
counts (`GetTickCount64` values). -/
def tickSub (a b : Nat) : Nat := (a % W64 + (W64 - b % W64)) % W64

/-- `std::string::npos` for a 64-bit `size_t`. -/
def NPOS : Nat := 2 ^ 64 - 1

/-- Oracle snapshot of every operating-system query that
`dwm_thumbnail.cc` performs.  One field per Win32 API the code consults;
a `World` is an arbitrary but fixed state of the OS. -/
structure World where
  /-- `IsWindow` -/
  isWindow : HWND → Bool
  /-- `IsWindowVisible` -/
  isWindowVisible : HWND → Bool
  /-- `GetAncestor hwnd GA_ROOT` -/
  ancestorRoot : HWND → HWND
  /-- `GetAncestor hwnd GA_ROOTOWNER` -/
  rootOwner : HWND → HWND
  /-- `GetLastActivePopup` -/
  lastActivePopup : HWND → HWND
  /-- `GetWindowRect`; `none` models failure of the call. -/
  getWindowRect : HWND → Option Rect
  /-- `GetWindowPlacement`, returning `rcNormalPosition`; `none` models
  failure of the call. -/
  placement : HWND → Option Rect
  /-- `IsIconic` -/
  isIconic : HWND → Bool
  /-- `GetWindowLongPtr hwnd GWL_EXSTYLE` -/
  exStyle : HWND → Nat
  /-- `GetWindowLongPtr hwnd GWL_STYLE` -/
  style : HWND → Nat
  /-- `GetWindow hwnd GW_OWNER`; `0` means no owner. -/
  owner : HWND → HWND
  /-- `GetWindowTextLengthW` -/
  titleLength : HWND → Nat
  /-- The text delivered by `GetWindowTextW` when the length is positive. -/
  windowTitle : HWND → String
  /-- `GetClassNameW` (empty string on failure). -/
  className : HWND → String
  /-- The UTF-8 executable path computed by `GetExecutablePath` (empty if
  inaccessible). -/
  exePath : HWND → String
  /-- `GetLayeredWindowAttributes`, returning `(alpha, flags)` on
  success. -/
  layeredAttrs : HWND → Option (Nat × Nat)
  /-- `DwmGetWindowAttribute hwnd DWMWA_CLOAKED` as interpreted by
  `IsWindowCloaked`. -/
  isCloaked : HWND → Bool
  /-- The chain walked by `GetWindow hwnd GW_CHILD` followed by repeated
  `GetWindow child GW_HWNDNEXT`, as a finite list. -/
  childChain : HWND → List HWND
  /-- Whether `QueryInterface` for `IVirtualDesktopManager` succeeds. -/
  vdmQiOk : Bool
  /-- `IsWindowOnCurrentVirtualDesktop`; `none` models a failed HRESULT. -/
  vdmQuery : HWND → Option Bool
  /-- The handles delivered by `EnumWindows`, in OS enumeration order. -/
  topLevelWindows : List HWND
  /-- `GetForegroundWindow` -/
  foreground : HWND
  /-- `GetTickCount64` at the current poller tick. -/
  nowTick : Nat
  /-- The `g_lastHookEventTick` marker value (0 when no hook event was
  ever observed). -/
  lastHookTick : Nat
  /-- Whether `g_tsfnCreated` is registered. -/
  cbCreated : Bool
  /-- Whether `g_tsfnClosed` is registered. -/
  cbClosed : Bool
  /-- Whether `g_tsfnFocused` is registered. -/
  cbFocused : Bool
  /-- Whether `g_tsfnMinimized` is registered. -/
  cbMinimized : Bool
  /-- Whether `g_tsfnRestored` is registered. -/
  cbRestored : Bool
  /-- Whether `g_tsfnChange` is registered. -/
  cbChange : Bool
  /-- The payload produced by `CaptureWithDwmThumbnail` (its internal
  failure paths all yield the empty sentinel). -/
  dwmThumbResult : HWND → Int → Int → String
  /-- Whether the build has `ENABLE_WGC` and the runtime supports
  Windows Graphics Capture. -/
  wgcEnabled : Bool
  /-- The payload produced by `CaptureWindowScreenshotWGC`. -/
  wgcResult : HWND → Int → Int → String
  /-- Whether `GetDC hwnd` succeeds. -/
  getDcOk : HWND → Bool
  /-- Whether the first `CreateCompatibleDC` succeeds. -/
  memDcOk : HWND → Bool
  /-- Whether the second `CreateCompatibleDC` succeeds. -/
  thumbDcOk : HWND → Bool
  /-- Whether `CreateCompatibleBitmap` for the full-size bitmap succeeds. -/
  screenBmOk : HWND → Bool
  /-- Whether `CreateCompatibleBitmap` for the thumbnail succeeds. -/
  thumbBmOk : HWND → Bool
  /-- The payload produced by `BitmapToPngBase64` on the stretched
  thumbnail of the given scaled dimensions (its failure paths yield the
  empty sentinel).  The PrintWindow fidelity chain and the desktop BitBlt
  fallback only determine the pixels and are absorbed here. -/
  encodeResult : HWND → Int → Int → String
  /-- The payload produced by `CreateIconPlaceholderThumbnail`. -/
  placeholderResult : HWND → Int → Int → String

/-- Lowercasing as applied by the code via `std::tolower` per character. -/
def lowerStr (s : String) : String := String.mk (s.data.map Char.toLower)

/-- Whether `pat` is a prefix of `s` (character lists). -/
def leadsWith : List Char → List Char → Bool
  | [], _ => true
  | _ :: _, [] => false
  | a :: as, b :: bs => a == b && leadsWith as bs

/-- Whether `pat` occurs as a contiguous substring of `s`
(`std::string::find(pat) != npos`). -/
def occursIn (pat : List Char) : List Char → Bool
  | [] => pat.isEmpty
  | c :: rest => leadsWith pat (c :: rest) || occursIn pat rest

/-- Largest index at which `pat` occurs in `s`, if any. -/
def lastStartIdx (pat s : List Char) : Option Nat :=
  ((List.range (s.length + 1)).filter (fun i => leadsWith pat (s.drop i))).getLast?

/-- `std::string::rfind(pat)` with 64-bit `size_t` semantics: the last
occurrence index, or `npos` when absent. -/
def rfindVal (s pat : String) : Nat :=
  match lastStartIdx pat.data s.data with
  | some i => i
  | none => NPOS

/-- `GetWindowTitle` from `dwm_thumbnail.cc`: empty when
`GetWindowTextLengthW` is not positive, otherwise the window text. -/
def GetWindowTitle (w : World) (hwnd : HWND) : String :=
  if w.titleLength hwnd == 0 then "" else w.windowTitle hwnd

/-- `GetFirstChildTitle`'s scan over the child chain: first child with a
positive text length and non-empty retrieved title. -/
def firstChildTitleAux (w : World) : List HWND → String
  | [] => ""
  | c :: rest =>
    if decide (0 < w.titleLength c) && (GetWindowTitle w c != "") then GetWindowTitle w c
    else firstChildTitleAux w rest

/-- `GetFirstChildTitle` from `dwm_thumbnail.cc`. -/
def GetFirstChildTitle (w : World) (hwnd : HWND) : String :=
  firstChildTitleAux w (w.childChain hwnd)

/-- `HasVisibleChildWindow` from `dwm_thumbnail.cc`. -/
def HasVisibleChildWindow (w : World) (hwnd : HWND) : Bool :=
  (w.childChain hwnd).any w.isWindowVisible

/-- `IsPowerToysCommandPalette` from `dwm_thumbnail.cc`: matches the
lowered title against two palette names and the lowered path against the
palette executable. -/
def IsPowerToysCommandPalette (w : World) (hwnd : HWND) : Bool :=
  let tl := lowerStr (GetWindowTitle w hwnd)
  let pl := lowerStr (w.exePath hwnd)
  if occursIn ("befehlspalette".data) tl.data || occursIn ("command palette".data) tl.data then
    true
  else if occursIn ("microsoft.cmdpal.ui.exe".data) pl.data then true
  else false

/-- `IsExplorerWindow` from `dwm_thumbnail.cc`: class compares equal to
`CabinetWClass` case-insensitively, or the lowered path contains
`explorer.exe`. -/
def IsExplorerWindow (w : World) (hwnd : HWND) : Bool :=
  if lowerStr (w.className hwnd) == "cabinetwclass" then true
  else
    let path := w.exePath hwnd
    path != "" && occursIn ("explorer.exe".data) (lowerStr path).data

/-- `IsWhatsAppWindow` from `dwm_thumbnail.cc`.  The second path test is
translated with the code's unsigned arithmetic: `rfind == size - 12`
compares against `npos` when the pattern is absent, so the modulus is kept
explicit. -/
def IsWhatsAppWindow (w : World) (hwnd : HWND) : Bool :=
  let title := GetWindowTitle w hwnd
  if title != "" && occursIn ("whatsapp".data) (lowerStr title).data then true
  else
    let path := w.exePath hwnd
    if path != "" then
      let pl := lowerStr path
      occursIn ("\\whatsapp.exe".data) pl.data ||
        (rfindVal pl ("whatsapp.exe") == (pl.length + W64 - 12) % W64)
    else false

/-- `IsTopLevelWindow` from `dwm_thumbnail.cc`: non-null and its own
`GA_ROOT` ancestor. -/
def IsTopLevelWindow (w : World) (hwnd : HWND) : Bool :=
  if hwnd == 0 then false else w.ancestorRoot hwnd == hwnd

/-- The rectangle the size check (and the capture geometry) uses: the
restored `rcNormalPosition` when the window is minimized and
`GetWindowPlacement` succeeds, otherwise the current `GetWindowRect`
(`none` when that fails as well).  Lines 1576-1589 and 1793-1807 of
`dwm_thumbnail.cc` share this logic. -/
def sizeCheckRect (w : World) (hwnd : HWND) : Option Rect :=
  if w.isIconic hwnd then
    match w.placement hwnd with
    | some r => some r
    | none => w.getWindowRect hwnd
  else w.getWindowRect hwnd

/-- `IsAltTabEligible` from `dwm_thumbnail.cc` lines 1745-1813, translated
check by check.  The `includeAllDesktops` parameter is declared exactly as
in the source (where it is never read). -/
def IsAltTabEligible (w : World) (hwnd : HWND) (includeAllDesktops : Bool) : Bool :=
  if !(w.isWindow hwnd) then false
  else if IsPowerToysCommandPalette w hwnd then false
  else if !(w.isWindowVisible hwnd) then false
  else
    let exStyle := w.exStyle hwnd
    if exStyle &&& WS_EX_TOOLWINDOW != 0 then false
    else if exStyle &&& WS_EX_NOACTIVATE != 0 then false
    else if exStyle &&& WS_EX_LAYERED != 0 &&
            (match w.layeredAttrs hwnd with
             | some (alpha, flags) => flags &&& LWA_ALPHA != 0 && alpha == 0
             | none => false) then false
    else if (w.titleLength hwnd == 0) &&
            !(lowerStr (w.className hwnd) == "applicationframewindow") &&
            !(IsExplorerWindow w hwnd) && !(IsWhatsAppWindow w hwnd) then false
    else
      let style := w.style hwnd
      if style &&& WS_CHILD != 0 then false
      else if style &&& WS_POPUP != 0 && !(exStyle &&& WS_EX_APPWINDOW != 0) &&
              !(IsWhatsAppWindow w hwnd) then false
      else if !(exStyle &&& WS_EX_APPWINDOW != 0) && (w.owner hwnd != 0) then false
      else if (lowerStr (w.className hwnd) == "applicationframewindow") &&
              w.isCloaked hwnd then false
      else
        match sizeCheckRect w hwnd with
        | none => false
        | some rect =>
          if rect.right - rect.left < 50 ∨ rect.bottom - rect.top < 50 then false
          else true

/-- The `GetLastActivePopup` walk of `IsOnCurrentVirtualDesktop`
(lines 1828-1835): keep following `GetLastActivePopup` until it reaches a
fixed point or a visible window.  The OS guarantees the chain reaches a
fixed point; the recursion is bounded by explicit fuel that is never
exhausted on real chains. -/
def popupWalk (w : World) : Nat → HWND → HWND → HWND
  | 0, walk, _ => walk
  | fuel + 1, walk, tryH =>
    if tryH == walk then walk
    else
      let try2 := w.lastActivePopup tryH
      if w.isWindowVisible try2 then tryH
      else popupWalk w fuel tryH try2

/-- The fuel bound for `popupWalk`; large enough for any real popup
chain. -/
def popupWalkFuel : Nat := 65536

/-- `IsOnCurrentVirtualDesktop` from `dwm_thumbnail.cc` lines 1821-1849.
`vdmAvailable` models whether `CoCreateInstance` produced an
`IVirtualDesktopManager` (`vdmUnknown` non-null). -/
def IsOnCurrentVirtualDesktop (w : World) (hwnd : HWND) (vdmAvailable includeAllDesktops : Bool) :
    Bool :=
  if includeAllDesktops then true
  else if !vdmAvailable then true
  else
    let rootOwner := w.rootOwner hwnd
    let testHwnd :=
      if rootOwner != 0 then
        let walk := popupWalk w popupWalkFuel 0 rootOwner
        if walk != 0 then walk else hwnd
      else hwnd
    if !w.vdmQiOk then true
    else
      match w.vdmQuery testHwnd with
      | none => true
      | some onCurrent =>
        if onCurrent then true
        else if w.isWindowVisible hwnd || w.isWindowVisible testHwnd then true
        else if IsWhatsAppWindow w hwnd &&
                (w.isWindowVisible hwnd || HasVisibleChildWindow w hwnd) then true
        else false

/-- The record built for each listed window (`WindowInfo` in the source). -/
structure WindowInfo where
  hwnd : HWND
  title : String
  executablePath : String
  isVisible : Bool
deriving DecidableEq, Repr

/-- The title resolution of `EnumWindowsProc` (lines 1858-1875): an empty
title is replaced by a child title for app-frame hosts, by a child title or
the fixed label for Explorer, and by the fixed name for WhatsApp; if it is
still empty the window is skipped. -/
def ResolveListTitle (w : World) (hwnd : HWND) : Option String :=
  let title := GetWindowTitle w hwnd
  if title != "" then some title
  else
    let t1 :=
      if lowerStr (w.className hwnd) == "applicationframewindow" then GetFirstChildTitle w hwnd
      else ""
    let t2 :=
      if t1 == "" && IsExplorerWindow w hwnd then
        let ct := GetFirstChildTitle w hwnd
        if ct == "" then "Datei-Explorer" else ct
      else t1
    let t3 := if t2 == "" && IsWhatsAppWindow w hwnd then "WhatsApp" else t2
    if t3 == "" then none else some t3

/-- One step of `EnumWindowsProc` (lines 1852-1889): eligibility filter,
desktop-membership filter, then title resolution; returns the record that
is appended, if any. -/
def EnumWindowsStep (w : World) (vdmAvailable includeAllDesktops : Bool) (hwnd : HWND) :
    Option WindowInfo :=
  if !(IsAltTabEligible w hwnd includeAllDesktops) then none
  else if !(IsOnCurrentVirtualDesktop w hwnd vdmAvailable includeAllDesktops) then none
  else
    match ResolveListTitle w hwnd with
    | none => none
    | some t => some ⟨hwnd, t, w.exePath hwnd, w.isWindowVisible hwnd⟩

/-- The window list built by `GetWindows` / `GetWindowsAsyncWorker`:
`EnumWindows` over all top-level handles, filtered through
`EnumWindowsProc`. -/
def GetWindowsList (w : World) (vdmAvailable includeAllDesktops : Bool) : List WindowInfo :=
  w.topLevelWindows.filterMap (EnumWindowsStep w vdmAvailable includeAllDesktops)

/-- The empty payload sentinel `"data:image/png;base64,"` (22 characters),
returned by every failure path of the capture pipeline. -/
def sentinel : String := "data:image/png;base64,"

/-- The quality heuristic used by `CaptureWindowScreenshot`,
`GetOrCaptureWindowThumbnail` and `UpdateThumbnail` (three textually
identical lambdas in the source): a payload is good when its size exceeds
`strlen("data:image/png;base64,") + 8000 = 8022`. -/
def isGoodPngSize (data : String) : Bool := decide (8022 < data.length)

/-- The aspect-preserving scaled thumbnail dimensions of
`CaptureWindowScreenshot` lines 1598-1604.  The C code computes with
`double`; the model computes the same quantities with exact rationals and
truncation (the dimensions are non-negative on every reachable path). -/
def captureScaledDims (maxWidth maxHeight : Int) (r : Rect) : Int × Int :=
  let ww := r.right - r.left
  let wh := r.bottom - r.top
  let scale : Rat := min ((maxWidth : Rat) / (ww : Rat)) ((maxHeight : Rat) / (wh : Rat))
  (Rat.floor ((ww : Rat) * scale), Rat.floor ((wh : Rat) * scale))

/-- `CaptureWindowScreenshot` from `dwm_thumbnail.cc` lines 1545-1681:
invalid-handle guard, DWM-thumbnail attempt for minimized windows,
optional Windows-Graphics-Capture attempt for non-minimized windows,
geometry determination, zero-area and allocation guards, and the final
scaled capture whose bytes come from the encoder oracle (the PrintWindow
fidelity chain and the desktop BitBlt fallback determine only the
pixels). -/
def CaptureWindowScreenshot (w : World) (hwnd : HWND) (maxWidth maxHeight : Int) : String :=
  if !(w.isWindow hwnd) then sentinel
  else
    let dwmTn := w.dwmThumbResult hwnd maxWidth maxHeight
    if w.isIconic hwnd && isGoodPngSize dwmTn then dwmTn
    else
      let wgc := w.wgcResult hwnd maxWidth maxHeight
      if !(w.isIconic hwnd) && w.wgcEnabled && decide (22 < wgc.length) then wgc
      else
        match sizeCheckRect w hwnd with
        | none => sentinel
        | some windowRect =>
          if windowRect.right - windowRect.left ≤ 0 ∨
             windowRect.bottom - windowRect.top ≤ 0 then sentinel
          else if !(w.getDcOk hwnd) then sentinel
          else if !(w.memDcOk hwnd && w.thumbDcOk hwnd) then sentinel
          else if !(w.screenBmOk hwnd && w.thumbBmOk hwnd) then sentinel
          else
            let dims := captureScaledDims maxWidth maxHeight windowRect
            w.encodeResult hwnd dims.1 dims.2

/-- One entry of the thumbnail cache (`ThumbCacheEntry` in the source). -/
structure ThumbCacheEntry where
  base64 : String
  rect : Rect
  ts : Nat
  w : Int
  h : Int
deriving DecidableEq, Repr

/-- The thumbnail cache `g_thumbCache`, as an association list keyed by
handle (at most one binding per handle, like the `unordered_map`). -/
abbrev ThumbCache := List (HWND × ThumbCacheEntry)

/-- Association-list lookup (`unordered_map::find`). -/
def alookup {α : Type} : List (HWND × α) → HWND → Option α
  | [], _ => none
  | (k, v) :: rest, key => if k == key then some v else alookup rest key

/-- Association-list overwrite (`unordered_map::operator[] =`). -/
def cacheSet (c : ThumbCache) (hwnd : HWND) (e : ThumbCacheEntry) : ThumbCache :=
  (hwnd, e) :: c.filter (fun p => p.1 != hwnd)

/-- `THUMB_TTL_MS` from the source. -/
def THUMB_TTL_MS : Nat := 800

/-- Result of a thumbnail fetch: the payload, the cache afterwards, and
whether `CaptureWindowScreenshot` was invoked. -/
structure FetchResult where
  payload : String
  cache : ThumbCache
  captureInvoked : Bool
deriving Repr

/-- The continuation of `GetOrCaptureWindowThumbnail` after the TTL cache
check missed (lines 1707-1734): minimized-good-cache short-circuit, fresh
capture, minimized-degenerate handling with icon placeholder, and the
cache write. -/
def GetOrCaptureMiss (w : World) (cache : ThumbCache) (now : Nat) (hwnd : HWND)
    (maxWidth maxHeight : Int) (rect : Rect) : FetchResult :=
  let minimizedGood : Option String :=
    if w.isIconic hwnd then
      match alookup cache hwnd with
      | some e => if isGoodPngSize e.base64 then some e.base64 else none
      | none => none
    else none
  match minimizedGood with
  | some payload => ⟨payload, cache, false⟩
  | none =>
    let fresh := CaptureWindowScreenshot w hwnd maxWidth maxHeight
    if w.isIconic hwnd && !(isGoodPngSize fresh) then
      match alookup cache hwnd with
      | some e =>
        if isGoodPngSize e.base64 then ⟨e.base64, cache, true⟩
        else
          let placeholder := w.placeholderResult hwnd maxWidth maxHeight
          ⟨if decide (22 < placeholder.length) then placeholder else fresh, cache, true⟩
      | none =>
        let placeholder := w.placeholderResult hwnd maxWidth maxHeight
        ⟨if decide (22 < placeholder.length) then placeholder else fresh, cache, true⟩
    else
      ⟨fresh, cacheSet cache hwnd ⟨fresh, rect, now, maxWidth, maxHeight⟩, true⟩

/-- `GetOrCaptureWindowThumbnail` from `dwm_thumbnail.cc` lines 1684-1735:
rectangle fetch, TTL/geometry/size cache check, then the miss
continuation. -/
def GetOrCaptureWindowThumbnail (w : World) (cache : ThumbCache) (now : Nat) (hwnd : HWND)
    (maxWidth maxHeight : Int) : FetchResult :=
  match w.getWindowRect hwnd with
  | none => ⟨sentinel, cache, false⟩
  | some rect =>
    match alookup cache hwnd with
    | some e =>
      if e.w == maxWidth && e.h == maxHeight &&
         e.rect.left == rect.left && e.rect.top == rect.top &&
         e.rect.right == rect.right && e.rect.bottom == rect.bottom &&
         decide (tickSub now e.ts < THUMB_TTL_MS) then
        ⟨e.base64, cache, false⟩
      else GetOrCaptureMiss w cache now hwnd maxWidth maxHeight rect
    | none => GetOrCaptureMiss w cache now hwnd maxWidth maxHeight rect

/-- Synchronous `UpdateThumbnail` (lines 1959-1990): dead-handle error,
fresh capture at the default 200x150 request, and a cache write guarded
against minimized degenerate captures. -/
def UpdateThumbnail (w : World) (cache : ThumbCache) (now : Nat) (windowId : HWND) :
    Except String (String × ThumbCache) :=
  if windowId == 0 || !(w.isWindow windowId) then .error ("Window ID not found or invalid")
  else
    let newThumbnail := CaptureWindowScreenshot w windowId 200 150
    let cache2 :=
      match w.getWindowRect windowId with
      | some rect =>
        if !(w.isIconic windowId && !(isGoodPngSize newThumbnail)) then
          cacheSet cache windowId ⟨newThumbnail, rect, now, 200, 150⟩
        else cache
      | none => cache
    .ok (newThumbnail, cache2)

/-- `UpdateThumbnailAsyncWorker::Execute` (lines 2113-2128): dead-handle
error, fresh capture, and an unconditional cache write whenever the
rectangle is available. -/
def UpdateThumbnailAsyncExecute (w : World) (cache : ThumbCache) (now : Nat) (windowId : HWND) :
    Except String (String × ThumbCache) :=
  if windowId == 0 || !(w.isWindow windowId) then .error ("Window ID not found or invalid")
  else
    let thumbnail := CaptureWindowScreenshot w windowId 200 150
    let cache2 :=
      match w.getWindowRect windowId with
      | some rect => cacheSet cache windowId ⟨thumbnail, rect, now, 200, 150⟩
      | none => cache
    .ok (thumbnail, cache2)

/-- Synchronous `OpenWindow` (lines 1993-2024).  The restore/focus calls
are fire-and-forget OS actions; the modelled result is the thrown error or
the returned boolean. -/
def OpenWindow (w : World) (windowId : HWND) : Except String Bool :=
  if windowId == 0 then .error ("Window ID not found or invalid")
  else if !(w.isWindow windowId) then .error ("Window no longer exists")
  else .ok true

/-- `OpenWindowAsyncWorker::Execute` (lines 2144-2157): rejection for null
or dead handles, otherwise resolution with `true`. -/
def OpenWindowAsyncExecute (w : World) (windowId : HWND) : Except String Bool :=
  if windowId == 0 || !(w.isWindow windowId) then .error ("Window ID not found or invalid")
  else .ok true

/-- The fast acceptance test of `EnumTopLevelWindows` (lines 607-621):
live, top-level, visible, not a tool window, unowned, and current
rectangle at least 50x50. -/
def pollerAccepts (w : World) (hwnd : HWND) : Bool :=
  if !(w.isWindow hwnd) || !(IsTopLevelWindow w hwnd) || !(w.isWindowVisible hwnd) then false
  else if w.exStyle hwnd &&& WS_EX_TOOLWINDOW != 0 then false
  else if w.owner hwnd != 0 then false
  else
    match w.getWindowRect hwnd with
    | none => false
    | some rc =>
      if rc.right - rc.left < 50 ∨ rc.bottom - rc.top < 50 then false else true

/-- `EnumTopLevelWindows` from `dwm_thumbnail.cc`: the OS enumeration
filtered through the fast checks. -/
def EnumTopLevelWindows (w : World) : List HWND :=
  w.topLevelWindows.filter (fun h => pollerAccepts w h)

/-- The conjunction form of the poller's fast checks, stated the way the
amended claim C4 describes them. -/
def pollerFastChecks (w : World) (hwnd : HWND) : Bool :=
  w.isWindow hwnd && (hwnd != 0) && (w.ancestorRoot hwnd == hwnd) &&
  w.isWindowVisible hwnd && (w.exStyle hwnd &&& WS_EX_TOOLWINDOW == 0) &&
  (w.owner hwnd == 0) &&
  (match w.getWindowRect hwnd with
   | none => false
   | some rc => decide (50 ≤ rc.right - rc.left) && decide (50 ≤ rc.bottom - rc.top))

/-- The normalized event vocabulary emitted by the engine. -/
inductive EventKind where
  | created
  | closed
  | focused
  | minimized
  | restored
deriving DecidableEq, Repr

/-- An emission of the poller: the kind and the subject handle. -/
abbrev PollEvent := EventKind × HWND

/-- The loop-local state of the fallback poller thread (lines 628-630):
`lastFg`, the `known` set and the `minimized` map. -/
structure PollerState where
  lastFg : HWND
  known : List HWND
  minimized : List (HWND × Bool)
deriving DecidableEq, Repr

/-- The suppression test of lines 634-636: a hook event was observed and
it happened less than 1000 ms ago (unsigned tick arithmetic). -/
def hookRecent (w : World) : Bool :=
  (w.lastHookTick != 0) && decide (tickSub w.nowTick w.lastHookTick < 1000)

/-- The foreground resolution of lines 639-643: map the foreground window
to its `GA_ROOT` ancestor when that is non-null. -/
def tickForeground (w : World) : HWND :=
  let fg0 := w.foreground
  if fg0 != 0 then
    let top := w.ancestorRoot fg0
    if top != 0 then top else fg0
  else fg0

/-- One step of the created-diff loop in its emitting branch
(lines 676-704): insert unseen handles and record a created event. -/
def createdStep (p : List HWND × List PollEvent) (h : HWND) : List HWND × List PollEvent :=
  if p.1.contains h then p else (h :: p.1, p.2 ++ [(EventKind.created, h)])

/-- One step of the created-diff loop in its bookkeeping-only branch
(line 707): insert unseen handles. -/
def insertStep (ks : List HWND) (h : HWND) : List HWND :=
  if ks.contains h then ks else h :: ks

/-- In-place update of the minimized map (`it->second = nowMin`). -/
def assocSet (m : List (HWND × Bool)) (k : HWND) (v : Bool) : List (HWND × Bool) :=
  m.map (fun p => if p.1 == k then (p.1, v) else p)

/-- One step of the minimized/restored loop (lines 748-805): record the
state of newly seen handles, update on transitions, and emit when allowed
by `emit` (which is `!hooksActive`) and the registered callbacks. -/
def minStep (w : World) (emit : Bool) (p : List (HWND × Bool) × List PollEvent) (h : HWND) :
    List (HWND × Bool) × List PollEvent :=
  let nowMin := w.isIconic h
  match alookup p.1 h with
  | none => ((h, nowMin) :: p.1, p.2)
  | some was =>
    if was != nowMin then
      (assocSet p.1 h nowMin,
       if emit && nowMin && (w.cbMinimized || w.cbChange) then
         p.2 ++ [(EventKind.minimized, h)]
       else if emit && !nowMin && (w.cbRestored || w.cbChange) then
         p.2 ++ [(EventKind.restored, h)]
       else p.2)
    else p

/-- The state effect of one `minStep`, independent of emission. -/
def minState (w : World) (m : List (HWND × Bool)) (h : HWND) : List (HWND × Bool) :=
  let nowMin := w.isIconic h
  match alookup m h with
  | none => (h, nowMin) :: m
  | some was => if was != nowMin then assocSet m h nowMin else m

/-- One tick of the fallback poller loop (lines 632-807): suppression
test, foreground-change detection, created/closed diff against the known
set, and minimized/restored transition tracking.  Returns the events
delivered to the registered callbacks during the tick and the new loop
state. -/
def pollerTick (w : World) (st : PollerState) : List PollEvent × PollerState :=
  let hooksActive := hookRecent w
  let fg := tickForeground w
  let focusEvents :=
    if !hooksActive && (fg != 0) && (fg != st.lastFg) && (w.cbFocused || w.cbChange) then
      [(EventKind.focused, fg)]
    else []
  let current := EnumTopLevelWindows w
  let knownCreated :=
    if !hooksActive && (w.cbCreated || w.cbChange) then
      current.foldl createdStep (st.known, [])
    else (current.foldl insertStep st.known, [])
  let closedEvents :=
    if !hooksActive && (w.cbClosed || w.cbChange) then
      (knownCreated.1.filter (fun h => !(current.contains h))).map
        (fun h => (EventKind.closed, h))
    else []
  let known2 := knownCreated.1.filter (fun h => current.contains h)
  let minRes := current.foldl (minStep w (!hooksActive)) (st.minimized, [])
  (focusEvents ++ knownCreated.2 ++ closedEvents ++ minRes.2, ⟨fg, known2, minRes.1⟩)

/-- The bookkeeping a tick always performs, emitted events aside: resolved
foreground, known set refreshed by the current enumeration, and minimized
map refreshed by the current iconic states. -/
def tickBookkeeping (w : World) (st : PollerState) : PollerState :=
  let current := EnumTopLevelWindows w
  ⟨tickForeground w,
   (current.foldl insertStep st.known).filter (fun h => current.contains h),
   current.foldl (minState w) st.minimized⟩

/-- The disjunction of the conditions under which
`CaptureWindowScreenshot` returns the empty sentinel before reaching the
encoder: invalid handle, or (no early strategy returned) with unavailable
geometry, empty area, or a failed device-context or bitmap allocation. -/
def captureEarlyReturn (w : World) (hwnd : HWND) (maxWidth maxHeight : Int) : Bool :=
  (w.isIconic hwnd && isGoodPngSize (w.dwmThumbResult hwnd maxWidth maxHeight)) ||
  (!(w.isIconic hwnd) && w.wgcEnabled &&
    decide (22 < (w.wgcResult hwnd maxWidth maxHeight).length))

/-- The total-failure conditions of claim C9 for
`CaptureWindowScreenshot`. -/
def captureHardFailure (w : World) (hwnd : HWND) (maxWidth maxHeight : Int) : Bool :=
  !(w.isWindow hwnd) ||
  (!(captureEarlyReturn w hwnd maxWidth maxHeight) &&
    (match sizeCheckRect w hwnd with
     | none => true
     | some r =>
       decide (r.right - r.left ≤ 0) || decide (r.bottom - r.top ≤ 0) ||
       !(w.getDcOk hwnd) || !(w.memDcOk hwnd) || !(w.thumbDcOk hwnd) ||
       !(w.screenBmOk hwnd) || !(w.thumbBmOk hwnd) ||
       (w.encodeResult hwnd (captureScaledDims maxWidth maxHeight r).1
          (captureScaledDims maxWidth maxHeight r).2 == sentinel)))

/-- A default oracle snapshot: no live windows, every allocation succeeds,
every capture oracle yields the sentinel.  Concrete scenarios override
individual fields. -/
def baseWorld : World where
  isWindow := fun _ => false
  isWindowVisible := fun _ => false
  ancestorRoot := fun h => h
  rootOwner := fun h => h
  lastActivePopup := fun _ => 0
  getWindowRect := fun _ => none
  placement := fun _ => none
  isIconic := fun _ => false
  exStyle := fun _ => 0
  style := fun _ => 0
  owner := fun _ => 0
  titleLength := fun _ => 0
  windowTitle := fun _ => ""
  className := fun _ => ""
  exePath := fun _ => ""
  layeredAttrs := fun _ => none
  isCloaked := fun _ => false
  childChain := fun _ => []
  vdmQiOk := true
  vdmQuery := fun _ => none
  topLevelWindows := []
  foreground := 0
  nowTick := 0
  lastHookTick := 0
  cbCreated := false
  cbClosed := false
  cbFocused := false
  cbMinimized := false
  cbRestored := false
  cbChange := false
  dwmThumbResult := fun _ _ _ => sentinel
  wgcEnabled := false
  wgcResult := fun _ _ _ => sentinel
  getDcOk := fun _ => true
  memDcOk := fun _ => true
  thumbDcOk := fun _ => true
  screenBmOk := fun _ => true
  thumbBmOk := fun _ => true
  encodeResult := fun _ _ _ => sentinel
  placeholderResult := fun _ _ _ => sentinel

/-- A payload long enough to be classified as good by the quality
heuristic. -/
def goodPayload : String := String.mk (List.replicate 8023 'x')

/-- A cache entry holding a good payload captured at tick 100 for a
100x100 window at the origin with the default 200x150 request. -/
def goodEntry : ThumbCacheEntry := ⟨goodPayload, ⟨0, 0, 100, 100⟩, 100, 200, 150⟩

/-- Scenario for claim C1: handle 1 is a live minimized window whose
fresh captures are all degenerate (the DWM thumbnail and the encoder both
yield the sentinel). -/
def w1c : World :=
  { baseWorld with
    isWindow := fun h => h == 1
    isIconic := fun h => h == 1
    getWindowRect := fun h => if h == 1 then some ⟨0, 0, 100, 100⟩ else none }

/-- Scenario for claim C2: handle 1 has a stable 100x100 rectangle. -/
def wc2 : World :=
  { baseWorld with
    getWindowRect := fun h => if h == 1 then some ⟨0, 0, 100, 100⟩ else none }

/-- A cached entry for the C2 scenario matching `wc2`'s rectangle and the
200x150 request, captured at tick 100. -/
def e0 : ThumbCacheEntry := ⟨"abc", ⟨0, 0, 100, 100⟩, 100, 200, 150⟩

/-- Scenario for claim C3: handle 1 is minimized and its current
rectangle moved to (5,5)-(105,105), differing from the cached one. -/
def w3c : World :=
  { baseWorld with
    isWindow := fun h => h == 1
    isIconic := fun h => h == 1
    getWindowRect := fun h => if h == 1 then some ⟨5, 5, 105, 105⟩ else none }

/-- Scenario for claim C4: handle 1 is a visible top-level no-activate
window with a regular title, accepted by the poller's fast checks but
rejected by `IsAltTabEligible`. -/
def w4 : World :=
  { baseWorld with
    isWindow := fun h => h == 1
    isWindowVisible := fun h => h == 1
    exStyle := fun h => if h == 1 then WS_EX_NOACTIVATE else 0
    getWindowRect := fun h => if h == 1 then some ⟨0, 0, 300, 300⟩ else none
    titleLength := fun h => if h == 1 then 6 else 0
    windowTitle := fun h => if h == 1 then "sample" else "" }

/-- Scenario for claim C4, opposite direction: handle 1 is an owned
`WS_EX_APPWINDOW` window, eligible for Alt-Tab but rejected by the
poller's unowned check. -/
def w4b : World :=
  { baseWorld with
    isWindow := fun h => h == 1
    isWindowVisible := fun h => h == 1
    exStyle := fun h => if h == 1 then WS_EX_APPWINDOW else 0
    owner := fun h => if h == 1 then 2 else 0
    getWindowRect := fun h => if h == 1 then some ⟨0, 0, 300, 300⟩ else none
    titleLength := fun h => if h == 1 then 3 else 0
    windowTitle := fun h => if h == 1 then "App" else ""
    className := fun h => if h == 1 then "mainwnd" else ""
    exePath := fun h => if h == 1 then "c:\\prog\\app.exe" else "" }

/-- Scenario for claim C5: a hook signal was observed 600 ms before the
current tick, so the poller tick is suppressed. -/
def w5 : World :=
  { baseWorld with
    nowTick := 1500
    lastHookTick := 900
    cbCreated := true
    cbClosed := true
    cbFocused := true
    cbMinimized := true
    cbRestored := true
    cbChange := true }

/-- A poller state for the C5 scenario. -/
def st5 : PollerState := ⟨0, [], []⟩

/-- Scenario for claim C5, recovery side: hook activity has stopped (the
marker is cleared for the model; any marker older than 1000 ms behaves the
same) and the foreground moved to window 9. -/
def w5b : World :=
  { w5 with
    lastHookTick := 0
    foreground := 9 }

/-- Scenario for claim C6: handle 1 is a title-less visible app-frame host
whose visible child 2 is titled, and handle 3 is a titled visible tool
window; the OS enumerates both. -/
def w6 : World :=
  { baseWorld with
    isWindow := fun h => h == 1 || h == 3
    isWindowVisible := fun h => h == 1 || h == 2 || h == 3
    className := fun h => if h == 1 then "ApplicationFrameWindow" else ""
    childChain := fun h => if h == 1 then [2] else []
    titleLength := fun h => if h == 2 then 5 else if h == 3 then 3 else 0
    windowTitle := fun h => if h == 2 then "Inbox" else if h == 3 then "Tip" else ""
    exePath := fun h => if h == 1 then "c:\\apps\\host.exe" else ""
    exStyle := fun h => if h == 3 then WS_EX_TOOLWINDOW else 0
    getWindowRect := fun h => if h == 1 || h == 3 then some ⟨0, 0, 300, 200⟩ else none
    topLevelWindows := [1, 3] }

/-- Scenario for claim C7, rejection side: handle 1 is minimized and its
restored placement rectangle is 40x200. -/
def w7a : World :=
  { baseWorld with
    isWindow := fun h => h == 1
    isWindowVisible := fun h => h == 1
    isIconic := fun h => h == 1
    placement := fun h => if h == 1 then some ⟨0, 0, 40, 200⟩ else none }

/-- Scenario for claim C7, acceptance side: handle 1 is a plain visible
titled window whose rectangle is exactly 50x50. -/
def w7b : World :=
  { baseWorld with
    isWindow := fun h => h == 1
    isWindowVisible := fun h => h == 1
    titleLength := fun h => if h == 1 then 4 else 0
    windowTitle := fun h => if h == 1 then "Edit" else ""
    className := fun h => if h == 1 then "editwnd" else ""
    exePath := fun h => if h == 1 then "c:\\prog\\edit.exe" else ""
    getWindowRect := fun h => if h == 1 then some ⟨0, 0, 50, 50⟩ else none }

theorem tickSub_of_le (a b : Nat) (hba : b ≤ a) (haW : a < W64) : tickSub a b = a - b := by
  have hbW : b < W64 := lt_of_le_of_lt hba haW
  have hW : 0 < W64 := by norm_num [W64]
  unfold tickSub
  rw [Nat.mod_eq_of_lt haW, Nat.mod_eq_of_lt hbW]
  have h1 : a + (W64 - b) = (a - b) + W64 := by omega
  rw [h1, Nat.add_mod_right, Nat.mod_eq_of_lt (by omega)]

theorem createdFold_fst (current : List HWND) :
    ∀ (known : List HWND) (acc : List PollEvent),
      (current.foldl createdStep (known, acc)).1 = current.foldl insertStep known := by
  induction current with
  | nil => intro known acc; rfl
  | cons h t ih =>
    intro known acc
    simp only [List.foldl, createdStep, insertStep]
    cases hc : known.contains h <;> simp [hc, ih]

theorem minStep_fst (w : World) (e : Bool) (p : List (HWND × Bool) × List PollEvent)
    (h : HWND) : (minStep w e p h).1 = minState w p.1 h := by
  unfold minStep minState
  rcases halk : alookup p.1 h with _ | was <;> simp [halk]
  split <;> rfl

theorem minStep_snd_false (w : World) (p : List (HWND × Bool) × List PollEvent)
    (h : HWND) : (minStep w false p h).2 = p.2 := by
  unfold minStep
  rcases halk : alookup p.1 h with _ | was <;> simp [halk]
  split <;> rfl

theorem minFold_fst (w : World) (c : List HWND) :
    ∀ (e : Bool) (m : List (HWND × Bool)) (acc : List PollEvent),
      (c.foldl (minStep w e) (m, acc)).1 = c.foldl (minState w) m := by
  induction c with
  | nil => intro e m acc; rfl
  | cons h t ih =>
    intro e m acc
    simp only [List.foldl]
    have hpair : minStep w e (m, acc) h = ((minStep w e (m, acc) h).1,
        (minStep w e (m, acc) h).2) := rfl
    rw [hpair, ih, minStep_fst]

theorem minFold_snd_false (w : World) (c : List HWND) :
    ∀ (m : List (HWND × Bool)) (acc : List PollEvent),
      (c.foldl (minStep w false) (m, acc)).2 = acc := by
  induction c with
  | nil => intro m acc; rfl
  | cons h t ih =>
    intro m acc
    simp only [List.foldl]
    have hsnd : (minStep w false (m, acc) h).2 = acc := minStep_snd_false w (m, acc) h
    have hpair : minStep w false (m, acc) h = ((minStep w false (m, acc) h).1, acc) :=
      Prod.ext rfl hsnd
    rw [hpair, ih]

theorem firstChildTitleAux_append (w : World) (c : HWND) (rest : List HWND)
    (hclen : 0 < w.titleLength c) (hct : w.windowTitle c ≠ "") :
    ∀ pre : List HWND, (∀ x ∈ pre, w.titleLength x = 0 ∨ w.windowTitle x = "") →
      firstChildTitleAux w (pre ++ c :: rest) = w.windowTitle c := by
  intro pre
  induction pre with
  | nil =>
    intro _
    have hlen : (w.titleLength c == 0) = false := by
      simp [Nat.pos_iff_ne_zero.mp hclen]
    simp [firstChildTitleAux, GetWindowTitle, hlen, hclen, hct]
  | cons x xs ih =>
    intro hpre
    have hx := hpre x (by simp)
    have hcond : (decide (0 < w.titleLength x) && (GetWindowTitle w x != "")) = false := by
      rcases hx with h0 | hnil
      · simp [h0]
      · cases hl : (w.titleLength x == 0) <;> simp [GetWindowTitle, hl, hnil]
    simp only [List.cons_append, firstChildTitleAux, hcond, Bool.false_eq_true, if_false]
    exact ih (fun y hy => hpre y (by simp [hy]))

theorem eligible_true_of_checks (w : World) (h : HWND) (b : Bool) (r : Rect)
    (hW : w.isWindow h = true) (hPal : IsPowerToysCommandPalette w h = false)
    (hVis : w.isWindowVisible h = true)
    (hTool : w.exStyle h &&& WS_EX_TOOLWINDOW = 0)
    (hNoAct : w.exStyle h &&& WS_EX_NOACTIVATE = 0)
    (hLay : w.exStyle h &&& WS_EX_LAYERED = 0)
    (hTitle : w.titleLength h = 0 → lowerStr (w.className h) = "applicationframewindow")
    (hChild : w.style h &&& WS_CHILD = 0)
    (hPopup : w.style h &&& WS_POPUP = 0)
    (hOwner : w.owner h = 0)
    (hCloak : w.isCloaked h = false)
    (hRect : sizeCheckRect w h = some r)
    (hRW : 50 ≤ r.right - r.left) (hRH : 50 ≤ r.bottom - r.top) :
    IsAltTabEligible w h b = true := by
  have hTitleCond : ((w.titleLength h == 0) &&
      !(lowerStr (w.className h) == "applicationframewindow") &&
      !(IsExplorerWindow w h) && !(IsWhatsAppWindow w h)) = false := by
    cases hl : (w.titleLength h == 0)
    · simp
    · have hc := hTitle (by simpa using hl)
      simp [hc]
  unfold IsAltTabEligible
  simp [hW, hPal, hVis, hTool, hNoAct, hLay, hTitleCond, hChild, hPopup, hOwner,
    hCloak, hRect]
  omega

theorem eligible_false_of_toolwindow (w : World) (h : HWND) (b : Bool)
    (hT : w.exStyle h &&& WS_EX_TOOLWINDOW ≠ 0) :
    IsAltTabEligible w h b = false := by
  have hT2 : (w.exStyle h &&& WS_EX_TOOLWINDOW != 0) = true := by simpa using hT
  unfold IsAltTabEligible
  cases hiw : w.isWindow h
  · simp
  · cases hp : IsPowerToysCommandPalette w h
    · cases hv : w.isWindowVisible h
      · simp [hp, hv]
      · simp [hp, hv, hT2]
    · simp [hp]

theorem eligible_false_of_small_rect (w : World) (h : HWND) (b : Bool) (r : Rect)
    (hRect : sizeCheckRect w h = some r)
    (hSmall : r.right - r.left < 50 ∨ r.bottom - r.top < 50) :
    IsAltTabEligible w h b = false := by
  unfold IsAltTabEligible
  simp only [hRect]
  rw [if_pos hSmall]
  simp only [ite_self]

theorem pollerAccepts_eq_fastChecks (w : World) (h : HWND) :
    pollerAccepts w h = pollerFastChecks w h := by
  unfold pollerAccepts pollerFastChecks IsTopLevelWindow
  rcases hr : w.getWindowRect h with _ | rc <;>
  cases hiw : w.isWindow h <;>
  cases h0 : (h == 0) <;>
  cases har : (w.ancestorRoot h == h) <;>
  cases hv : w.isWindowVisible h <;>
  cases hts : (w.exStyle h &&& WS_EX_TOOLWINDOW == 0) <;>
  cases how : (w.owner h == 0) <;>
  simp [hiw, h0, har, hv, hts, how, hr, bne, ← decide_not, not_lt]

/-- Claim C2 (confirmed): when a fetch finds a cache entry whose stored
rectangle equals the window's current rectangle, whose stored request
matches the current request and whose age is strictly below the 800 ms
TTL, `GetOrCaptureWindowThumbnail` returns the byte-identical cached
payload, leaves the cache unchanged, and invokes no capture strategy. -/
theorem C2_cache_hit_purity (w : World) (cache : ThumbCache) (now : Nat) (hwnd : HWND)
    (maxWidth maxHeight : Int) (e : ThumbCacheEntry)
    (hLook : alookup cache hwnd = some e)
    (hRect : w.getWindowRect hwnd = some e.rect)
    (hw : e.w = maxWidth) (hh : e.h = maxHeight)
    (hts : e.ts ≤ now) (hnow : now < W64) (hAge : now - e.ts < 800) :
    GetOrCaptureWindowThumbnail w cache now hwnd maxWidth maxHeight =
      ⟨e.base64, cache, false⟩ := by
  have hSub : tickSub now e.ts = now - e.ts := tickSub_of_le now e.ts hts hnow
  unfold GetOrCaptureWindowThumbnail
  simp [hRect, hLook, hw, hh, hSub, THUMB_TTL_MS, hAge]

/-- Witness for C2: a concrete second fetch with matching geometry,
matching request and age 200 ms returns the cached bytes with no capture
and no write. -/
theorem C2_witness :
    alookup [((1 : HWND), e0)] 1 = some e0 ∧
    GetOrCaptureWindowThumbnail wc2 [(1, e0)] 300 1 200 150 = ⟨e0.base64, [(1, e0)], false⟩ :=
  ⟨rfl, C2_cache_hit_purity wc2 [(1, e0)] 300 1 200 150 e0 rfl rfl rfl rfl
    (by norm_num [e0]) (by norm_num [W64]) (by norm_num [e0])⟩

/-- Claim C8 (confirmed): for a null handle or a handle that no longer
refers to a live window, both the synchronous `OpenWindow` and
`OpenWindowAsyncWorker::Execute` report an explicit failure (a thrown
error / a rejected promise), never success. -/
theorem C8_activate_dead_handle (w : World) (windowId : HWND)
    (hDead : windowId = 0 ∨ w.isWindow windowId = false) :
    (∃ msg, OpenWindow w windowId = .error msg) ∧
    OpenWindowAsyncExecute w windowId = .error ("Window ID not found or invalid") := by
  rcases hDead with h0 | hlive
  · subst h0
    exact ⟨⟨"Window ID not found or invalid", rfl⟩, rfl⟩
  · constructor
    · unfold OpenWindow
      cases h0 : (windowId == 0)
      · exact ⟨"Window no longer exists", by simp [h0, hlive]⟩
      · exact ⟨"Window ID not found or invalid", by simp [h0]⟩
    · unfold OpenWindowAsyncExecute
      simp [hlive]

/-- Witness for C8: in `baseWorld` no handle is live, and handle 7 is
rejected by the asynchronous open operation. -/
theorem C8_witness :
    baseWorld.isWindow 7 = false ∧
    OpenWindowAsyncExecute baseWorld 7 = .error ("Window ID not found or invalid") :=
  ⟨rfl, (C8_activate_dead_handle baseWorld 7 (Or.inr rfl)).2⟩

/-- Claim C10 (confirmed): `IsAltTabEligible` never reads its
`includeAllDesktops` parameter, so its verdict is identical for any two
flag values; the flag only short-circuits the separate
`IsOnCurrentVirtualDesktop` check to `true`. -/
theorem C10_flag_independence (w : World) (hwnd : HWND) (b1 b2 : Bool) (vdmA : Bool) :
    IsAltTabEligible w hwnd b1 = IsAltTabEligible w hwnd b2 ∧
    IsOnCurrentVirtualDesktop w hwnd vdmA true = true :=
  ⟨rfl, rfl⟩

/-- Claim C4 counterexample: in `w4`, handle 1 (a visible top-level
no-activate window of regular size and title) is accepted by the poller's
enumeration predicate but rejected by `IsAltTabEligible` for either flag
value, so the two predicates do not agree. -/
theorem C4_counterexample :
    pollerAccepts w4 1 = true ∧
    IsAltTabEligible w4 1 false = false ∧ IsAltTabEligible w4 1 true = false :=
  ⟨rfl, rfl, rfl⟩

/-- Claim C4 (corrected): the poller's enumeration predicate is exactly
the conjunction of its fast checks (live, non-null top-level, visible, no
`WS_EX_TOOLWINDOW`, unowned, current rectangle at least 50x50); it is a
coarser filter than `IsAltTabEligible` and the two predicates disagree in
both directions on some worlds. -/
theorem C4_poller_fast_checks :
    (∀ (w : World) (hwnd : HWND), pollerAccepts w hwnd = pollerFastChecks w hwnd) ∧
    (∃ (w : World) (hwnd : HWND) (b : Bool),
      pollerAccepts w hwnd = true ∧ IsAltTabEligible w hwnd b = false) ∧
    (∃ (w : World) (hwnd : HWND) (b : Bool),
      pollerAccepts w hwnd = false ∧ IsAltTabEligible w hwnd b = true) :=
  ⟨pollerAccepts_eq_fastChecks, ⟨w4, 1, false, rfl, rfl⟩, ⟨w4b, 1, false, rfl, rfl⟩⟩

theorem goodPayload_isGood : isGoodPngSize goodPayload = true := by
  have hlen : goodPayload.length = 8023 := by
    show (List.replicate 8023 'x').length = 8023
    exact List.length_replicate 8023 'x'
  simp [isGoodPngSize, hlen]

/-- Claim C1 counterexample: in `w1c` handle 1 is a live *minimized*
window whose fresh capture is degenerate (the sentinel), yet
`UpdateThumbnailAsyncWorker::Execute` writes that degenerate payload into
the cache over an existing good entry — the asynchronous worker has no
monotonic quality guard at all. -/
theorem C1_counterexample :
    isGoodPngSize goodEntry.base64 = true ∧
    w1c.isIconic 1 = true ∧
    isGoodPngSize (CaptureWindowScreenshot w1c 1 200 150) = false ∧
    UpdateThumbnailAsyncExecute w1c [(1, goodEntry)] 200 1 =
      .ok (sentinel, [(1, ⟨sentinel, ⟨0, 0, 100, 100⟩, 200, 200, 150⟩)]) ∧
    isGoodPngSize sentinel = false :=
  ⟨goodPayload_isGood, rfl, rfl, rfl, rfl⟩

/-- Claim C1 (corrected): the monotonic quality guard holds only for the
two synchronous operations and only for minimized windows — when the
window is minimized and the fresh capture is degenerate, neither
`GetOrCaptureWindowThumbnail` nor the synchronous `UpdateThumbnail`
performs any cache write (so neither can replace a good entry there).
`UpdateThumbnailAsyncWorker::Execute` writes unconditionally, and for
non-minimized windows the synchronous paths also write a degenerate fresh
capture over a good entry. -/
theorem C1_minimized_guard (w : World) (cache : ThumbCache) (now : Nat) (hwnd : HWND)
    (maxWidth maxHeight : Int)
    (hIcon : w.isIconic hwnd = true)
    (hDeg : isGoodPngSize (CaptureWindowScreenshot w hwnd maxWidth maxHeight) = false)
    (hDeg2 : isGoodPngSize (CaptureWindowScreenshot w hwnd 200 150) = false) :
    (GetOrCaptureWindowThumbnail w cache now hwnd maxWidth maxHeight).cache = cache ∧
    (∀ res cache2, UpdateThumbnail w cache now hwnd = .ok (res, cache2) → cache2 = cache) := by
  constructor
  · unfold GetOrCaptureWindowThumbnail
    rcases hr : w.getWindowRect hwnd with _ | rect
    · rfl
    · have hMissCache : ∀ r : Rect,
          (GetOrCaptureMiss w cache now hwnd maxWidth maxHeight r).cache = cache := by
        intro r
        unfold GetOrCaptureMiss
        rcases hl : alookup cache hwnd with _ | e
        · simp [hIcon, hl, hDeg]
        · cases hg : isGoodPngSize e.base64 <;> simp [hIcon, hl, hDeg, hg]
      rcases hl : alookup cache hwnd with _ | e
      · simp only [hl]
        exact hMissCache rect
      · simp only [hl]
        split
        · rfl
        · exact hMissCache rect
  · intro res cache2 hok
    unfold UpdateThumbnail at hok
    cases hd : ((hwnd == 0) || !(w.isWindow hwnd))
    · rw [hd] at hok
      simp only [Bool.false_eq_true, if_false] at hok
      rcases hr : w.getWindowRect hwnd with _ | rect <;> rw [hr] at hok <;>
        simp [hIcon, hDeg2] at hok <;> exact hok.2.symm
    · rw [hd] at hok
      simp at hok

theorem rectFieldsEq (a b : Rect) (h1 : a.left = b.left) (h2 : a.top = b.top)
    (h3 : a.right = b.right) (h4 : a.bottom = b.bottom) : a = b := by
  cases a; cases b; simp_all

/-- Witness for C1: with an empty cache, the minimized degenerate capture
of `w1c` leaves the cache untouched through `GetOrCaptureWindowThumbnail`. -/
theorem C1_witness :
    w1c.isIconic 1 = true ∧
    isGoodPngSize (CaptureWindowScreenshot w1c 1 200 150) = false ∧
    (GetOrCaptureWindowThumbnail w1c [] 300 1 200 150).cache = [] :=
  ⟨rfl, rfl, (C1_minimized_guard w1c [] 300 1 200 150 rfl rfl rfl).1⟩

/-- Claim C3 counterexample: in `w3c` handle 1 is minimized with a good
cached payload whose stored rectangle differs from the current one, and
the entry is young (age 100 ms < 800 ms); the second fetch nevertheless
returns the cached payload and invokes no capture. -/
theorem C3_counterexample :
    w3c.getWindowRect 1 = some ⟨5, 5, 105, 105⟩ ∧
    goodEntry.rect ≠ (⟨5, 5, 105, 105⟩ : Rect) ∧
    tickSub 200 goodEntry.ts < THUMB_TTL_MS ∧
    w3c.isIconic 1 = true ∧
    isGoodPngSize goodEntry.base64 = true ∧
    GetOrCaptureWindowThumbnail w3c [(1, goodEntry)] 200 1 200 150 =
      ⟨goodEntry.base64, [(1, goodEntry)], false⟩ := by
  refine ⟨rfl, by decide, by decide, rfl, goodPayload_isGood, ?_⟩
  unfold GetOrCaptureWindowThumbnail GetOrCaptureMiss
  simp [w3c, alookup, goodEntry, goodPayload_isGood]

/-- Claim C3 (corrected): when the current rectangle differs from the
cached one, the second fetch invokes a fresh capture even within the TTL —
*unless* the window is minimized and the cached payload is good, in which
case the minimized special case returns the cached payload without any
capture.  For non-minimized windows, or cached payloads that are not good,
the recapture always happens. -/
theorem C3_geometry_invalidation (w : World) (cache : ThumbCache) (now : Nat) (hwnd : HWND)
    (maxWidth maxHeight : Int) (e : ThumbCacheEntry) (r : Rect)
    (hLook : alookup cache hwnd = some e)
    (hRect : w.getWindowRect hwnd = some r)
    (hNe : e.rect ≠ r)
    (hNMG : w.isIconic hwnd = false ∨ isGoodPngSize e.base64 = false) :
    (GetOrCaptureWindowThumbnail w cache now hwnd maxWidth maxHeight).captureInvoked
      = true := by
  have hcond : (e.w == maxWidth && e.h == maxHeight &&
      e.rect.left == r.left && e.rect.top == r.top &&
      e.rect.right == r.right && e.rect.bottom == r.bottom &&
      decide (tickSub now e.ts < THUMB_TTL_MS)) = false := by
    cases hc : (e.w == maxWidth && e.h == maxHeight &&
        e.rect.left == r.left && e.rect.top == r.top &&
        e.rect.right == r.right && e.rect.bottom == r.bottom &&
        decide (tickSub now e.ts < THUMB_TTL_MS))
    · rfl
    · exfalso
      simp only [Bool.and_eq_true, beq_iff_eq, decide_eq_true_eq] at hc
      obtain ⟨⟨⟨⟨⟨⟨h1, h2⟩, h3⟩, h4⟩, h5⟩, h6⟩, h7⟩ := hc
      exact hNe (rectFieldsEq e.rect r h3 h4 h5 h6)
  unfold GetOrCaptureWindowThumbnail
  simp only [hRect, hLook, hcond, Bool.false_eq_true, if_false]
  unfold GetOrCaptureMiss
  rcases hNMG with hIc | hG
  · simp [hIc]
  · cases hic : w.isIconic hwnd
    · simp [hic]
    · cases hf : isGoodPngSize (CaptureWindowScreenshot w hwnd maxWidth maxHeight) <;>
        simp [hic, hLook, hG, hf]

/-- Witness for C3: a non-good cached entry for the minimized window of
`w3c` with a moved rectangle forces a recapture on the second fetch. -/
theorem C3_witness :
    alookup [((1 : HWND), e0)] 1 = some e0 ∧
    w3c.getWindowRect 1 = some ⟨5, 5, 105, 105⟩ ∧
    e0.rect ≠ (⟨5, 5, 105, 105⟩ : Rect) ∧
    (GetOrCaptureWindowThumbnail w3c [(1, e0)] 200 1 200 150).captureInvoked = true :=
  ⟨rfl, rfl, by decide,
   C3_geometry_invalidation w3c [(1, e0)] 200 1 200 150 e0 ⟨5, 5, 105, 105⟩
     rfl rfl (by decide) (Or.inr (by decide))⟩

theorem capture_hard_failure_sentinel (w : World) (hwnd : HWND) (mw mh : Int)
    (hF : captureHardFailure w hwnd mw mh = true) :
    CaptureWindowScreenshot w hwnd mw mh = sentinel := by
  unfold captureHardFailure at hF
  rw [Bool.or_eq_true] at hF
  rcases hF with hiw | hrest
  · have hiw2 : w.isWindow hwnd = false := by simpa using hiw
    simp [CaptureWindowScreenshot, hiw2]
  · rw [Bool.and_eq_true] at hrest
    obtain ⟨hEarly, hTail⟩ := hrest
    have hEarly2 : captureEarlyReturn w hwnd mw mh = false := by simpa using hEarly
    unfold captureEarlyReturn at hEarly2
    have hDwm : (w.isIconic hwnd && isGoodPngSize (w.dwmThumbResult hwnd mw mh)) = false := by
      cases hq : (w.isIconic hwnd && isGoodPngSize (w.dwmThumbResult hwnd mw mh))
      · rfl
      · rw [hq] at hEarly2; simp at hEarly2
    have hWgc : (!(w.isIconic hwnd) && w.wgcEnabled &&
        decide (22 < (w.wgcResult hwnd mw mh).length)) = false := by
      cases hq : (!(w.isIconic hwnd) && w.wgcEnabled &&
          decide (22 < (w.wgcResult hwnd mw mh).length))
      · rfl
      · rw [hq] at hEarly2; simp at hEarly2
    cases hiw : w.isWindow hwnd
    · simp [CaptureWindowScreenshot, hiw]
    · simp only [CaptureWindowScreenshot, hiw, Bool.not_true, Bool.false_eq_true, if_false,
        hDwm, hWgc]
      rcases hsr : sizeCheckRect w hwnd with _ | r
      · simp
      · rw [hsr] at hTail
        simp only [Bool.or_eq_true] at hTail
        repeat' split
        all_goals try rfl
        rcases hTail with ((((((h | h) | h) | h) | h) | h) | h) | h
        all_goals simp_all
        all_goals omega

/-- Claim C9 (confirmed): `CaptureWindowScreenshot` is a total function of
the oracle state — it never raises — and on every failure path (invalid
handle, unavailable or zero-area geometry, device-context or bitmap
allocation failure, and an encoder that yields an empty payload once no
early strategy succeeded) it returns the well-defined empty sentinel; in
every other case its value is the payload of one of the capture
strategies. -/
theorem C9_capture_totality (w : World) (hwnd : HWND) (mw mh : Int) :
    (captureHardFailure w hwnd mw mh = true →
      CaptureWindowScreenshot w hwnd mw mh = sentinel) ∧
    (CaptureWindowScreenshot w hwnd mw mh = sentinel ∨
     CaptureWindowScreenshot w hwnd mw mh = w.dwmThumbResult hwnd mw mh ∨
     CaptureWindowScreenshot w hwnd mw mh = w.wgcResult hwnd mw mh ∨
     ∃ tw th, CaptureWindowScreenshot w hwnd mw mh = w.encodeResult hwnd tw th) := by
  constructor
  · exact capture_hard_failure_sentinel w hwnd mw mh
  · simp only [CaptureWindowScreenshot]
    repeat' split
    all_goals try exact Or.inl rfl
    all_goals try exact Or.inr (Or.inl rfl)
    all_goals try exact Or.inr (Or.inr (Or.inl rfl))
    all_goals exact Or.inr (Or.inr (Or.inr ⟨_, _, rfl⟩))

/-- Witness for C9: in `baseWorld` handle 7 is not a live window; the
failure predicate holds and the capture returns the sentinel. -/
theorem C9_witness :
    captureHardFailure baseWorld 7 200 150 = true ∧
    CaptureWindowScreenshot baseWorld 7 200 150 = sentinel :=
  ⟨rfl, (C9_capture_totality baseWorld 7 200 150).1 rfl⟩

/-- Claim C5 (confirmed): on every poller tick where a hook signal was
observed within the last 1000 ms the poller emits no events at all, and on
every tick — suppressed or not — its bookkeeping (resolved foreground,
known-window set, per-window minimized map) is updated to exactly
`tickBookkeeping`.  Emission on an unsuppressed tick is therefore a pure
function of that maintained state and the oracle, so the poller resumes
emitting after hook silence without any reconfiguration. -/
theorem C5_arbitration (w : World) (st : PollerState) :
    (hookRecent w = true → (pollerTick w st).1 = []) ∧
    (pollerTick w st).2 = tickBookkeeping w st ∧
    (hookRecent w = false → (w.cbFocused || w.cbChange) = true →
      tickForeground w ≠ 0 → tickForeground w ≠ st.lastFg →
      (EventKind.focused, tickForeground w) ∈ (pollerTick w st).1) := by
  refine ⟨?_, ?_, ?_⟩
  · intro hA
    simp [pollerTick, hA, minFold_snd_false]
  · cases hA : hookRecent w <;>
      cases hc : (w.cbCreated || w.cbChange) <;>
        simp [pollerTick, tickBookkeeping, hA, hc, createdFold_fst, minFold_fst]
  · intro hA hcb hfg hne
    have hfg2 : (tickForeground w != 0) = true := by simpa using hfg
    have hne2 : (tickForeground w != st.lastFg) = true := by simpa using hne
    simp [pollerTick, hA, hcb, hfg2, hne2]

/-- Witness for C5: in `w5` the last hook signal is 600 ms old, so the
tick is suppressed and emits nothing; in `w5b` the hook marker is cleared
and the foreground changed, so the very next tick emits the focused event
without any reconfiguration. -/
theorem C5_witness :
    hookRecent w5 = true ∧ (pollerTick w5 st5).1 = [] ∧
    hookRecent w5b = false ∧
    (EventKind.focused, 9) ∈ (pollerTick w5b st5).1 :=
  ⟨by decide, (C5_arbitration w5 st5).1 (by decide), by decide,
   (C5_arbitration w5b st5).2.2 (by decide) (by decide) (by decide) (by decide)⟩

theorem mem_getWindowsList_eligible (w : World) (vdmA b : Bool) (info : WindowInfo)
    (hMem : info ∈ GetWindowsList w vdmA b) :
    IsAltTabEligible w info.hwnd b = true := by
  obtain ⟨ih, it, ip, iv⟩ := info
  obtain ⟨a, haMem, haStep⟩ := List.mem_filterMap.mp hMem
  unfold EnumWindowsStep at haStep
  cases hel : IsAltTabEligible w a b <;> rw [hel] at haStep
  · simp at haStep
  · cases hdesk : IsOnCurrentVirtualDesktop w a vdmA b <;> rw [hdesk] at haStep
    · simp at haStep
    · rcases hres : ResolveListTitle w a with _ | t <;> rw [hres] at haStep
      · simp at haStep
      · simp only [Bool.not_true, Bool.false_eq_true, if_false, Option.some.injEq] at haStep
        have hah : a = ih := congrArg WindowInfo.hwnd haStep
        simpa [← hah] using hel

/-- Claim C6 (confirmed): (a) a window with title length 0, the app-frame
host class, and whose first titled child is visible with a non-empty
title, appears in the enumeration result bearing that child's title,
provided the remaining eligibility conditions hold; (b) a window carrying
`WS_EX_TOOLWINDOW` never appears in the result, whatever its other
attributes. -/
theorem C6_eligibility_titles :
    (∀ (w : World) (vdmA b : Bool) (h c : HWND) (pre rest : List HWND) (r : Rect),
      w.isWindow h = true → IsPowerToysCommandPalette w h = false →
      w.isWindowVisible h = true →
      w.exStyle h &&& WS_EX_TOOLWINDOW = 0 → w.exStyle h &&& WS_EX_NOACTIVATE = 0 →
      w.exStyle h &&& WS_EX_LAYERED = 0 →
      w.titleLength h = 0 → lowerStr (w.className h) = "applicationframewindow" →
      w.style h &&& WS_CHILD = 0 → w.style h &&& WS_POPUP = 0 →
      w.owner h = 0 → w.isCloaked h = false →
      sizeCheckRect w h = some r → 50 ≤ r.right - r.left → 50 ≤ r.bottom - r.top →
      IsOnCurrentVirtualDesktop w h vdmA b = true →
      h ∈ w.topLevelWindows →
      w.childChain h = pre ++ c :: rest →
      (∀ x ∈ pre, w.titleLength x = 0 ∨ w.windowTitle x = "") →
      w.isWindowVisible c = true → 0 < w.titleLength c → w.windowTitle c ≠ "" →
      (⟨h, w.windowTitle c, w.exePath h, true⟩ : WindowInfo) ∈ GetWindowsList w vdmA b) ∧
    (∀ (w : World) (vdmA b : Bool) (h : HWND) (info : WindowInfo),
      w.exStyle h &&& WS_EX_TOOLWINDOW ≠ 0 → info ∈ GetWindowsList w vdmA b →
      info.hwnd ≠ h) := by
  constructor
  · intro w vdmA b h c pre rest r hW hPal hVis hTool hNoAct hLay hT0 hCls hChild hPopup
      hOwner hCloak hRect hRW hRH hDesk hMem hChain hPre hCVis hCLen hCT
    have hElig : IsAltTabEligible w h b = true :=
      eligible_true_of_checks w h b r hW hPal hVis hTool hNoAct hLay (fun _ => hCls)
        hChild hPopup hOwner hCloak hRect hRW hRH
    have hFC : GetFirstChildTitle w h = w.windowTitle c := by
      unfold GetFirstChildTitle
      rw [hChain]
      exact firstChildTitleAux_append w c rest hCLen hCT pre hPre
    have hStep : EnumWindowsStep w vdmA b h =
        some ⟨h, w.windowTitle c, w.exePath h, true⟩ := by
      unfold EnumWindowsStep ResolveListTitle
      simp [hElig, hDesk, GetWindowTitle, hT0, hCls, hFC, hCT, hVis]
    exact List.mem_filterMap.mpr ⟨h, hMem, hStep⟩
  · intro w vdmA b h info hTl hMemInfo hEq
    have helig := mem_getWindowsList_eligible w vdmA b info hMemInfo
    rw [hEq, eligible_false_of_toolwindow w h b hTl] at helig
    exact absurd helig (by simp)

/-- Witness for C6: in `w6` the title-less app-frame host 1 is listed with
its child's title `Inbox`, and that record is not the tool window 3. -/
theorem C6_witness :
    (⟨1, "Inbox", "c:\\apps\\host.exe", true⟩ : WindowInfo) ∈ GetWindowsList w6 false false ∧
    WindowInfo.hwnd ⟨1, "Inbox", "c:\\apps\\host.exe", true⟩ ≠ 3 := by
  have hmem : (⟨1, "Inbox", "c:\\apps\\host.exe", true⟩ : WindowInfo) ∈
      GetWindowsList w6 false false := by
    have hshape : w6.childChain 1 = [] ++ 2 :: [] := rfl
    have hw : w6.windowTitle 2 = "Inbox" := rfl
    have hp : w6.exePath 1 = "c:\\apps\\host.exe" := rfl
    have h := C6_eligibility_titles.1 w6 false false 1 2 [] [] ⟨0, 0, 300, 200⟩
      rfl (by decide) rfl (by decide) (by decide) (by decide) rfl (by decide)
      (by decide) (by decide) rfl rfl rfl (by decide) (by decide) rfl (by decide)
      hshape (by simp) rfl (by decide) (by decide)
    rw [hw, hp] at h
    exact h
  refine ⟨hmem, C6_eligibility_titles.2 w6 false false 3 _ (by decide) hmem⟩

/-- Claim C7 (confirmed): the size rule of the eligibility predicate is
evaluated on the restored placement rectangle for minimized windows and on
the current rectangle otherwise; a 40x200 rectangle (width below 50) is
always rejected, and an exactly 50x50 rectangle is accepted when the
remaining eligibility conditions hold. -/
theorem C7_minimum_size (w1 w2 : World) (h1 h2 : HWND) (b1 b2 : Bool) (r1 r2 : Rect)
    (hr1 : sizeCheckRect w1 h1 = some r1)
    (hw1 : r1.right - r1.left = 40) (hh1 : r1.bottom - r1.top = 200)
    (hW : w2.isWindow h2 = true) (hPal : IsPowerToysCommandPalette w2 h2 = false)
    (hVis : w2.isWindowVisible h2 = true)
    (hTool : w2.exStyle h2 &&& WS_EX_TOOLWINDOW = 0)
    (hNoAct : w2.exStyle h2 &&& WS_EX_NOACTIVATE = 0)
    (hLay : w2.exStyle h2 &&& WS_EX_LAYERED = 0)
    (hTitle : w2.titleLength h2 ≠ 0)
    (hChild : w2.style h2 &&& WS_CHILD = 0)
    (hPopup : w2.style h2 &&& WS_POPUP = 0)
    (hOwner : w2.owner h2 = 0)
    (hCloak : w2.isCloaked h2 = false)
    (hr2 : sizeCheckRect w2 h2 = some r2)
    (hw2 : r2.right - r2.left = 50) (hh2 : r2.bottom - r2.top = 50) :
    IsAltTabEligible w1 h1 b1 = false ∧ IsAltTabEligible w2 h2 b2 = true ∧
    (∀ (w : World) (h : HWND) (p : Rect), w.isIconic h = true → w.placement h = some p →
      sizeCheckRect w h = some p) ∧
    (∀ (w : World) (h : HWND), w.isIconic h = false →
      sizeCheckRect w h = w.getWindowRect h) := by
  refine ⟨?_, ?_, ?_, ?_⟩
  · exact eligible_false_of_small_rect w1 h1 b1 r1 hr1 (Or.inl (by omega))
  · exact eligible_true_of_checks w2 h2 b2 r2 hW hPal hVis hTool hNoAct hLay
      (fun hz => absurd hz hTitle) hChild hPopup hOwner hCloak hr2 (by omega) (by omega)
  · intro w h p hi hp
    simp [sizeCheckRect, hi, hp]
  · intro w h hi
    simp [sizeCheckRect, hi]

/-- Witness for C7: the minimized window of `w7a` with restored placement
40x200 is rejected; the 50x50 window of `w7b` is accepted. -/
theorem C7_witness :
    sizeCheckRect w7a 1 = some ⟨0, 0, 40, 200⟩ ∧
    sizeCheckRect w7b 1 = some ⟨0, 0, 50, 50⟩ ∧
    IsAltTabEligible w7a 1 false = false ∧ IsAltTabEligible w7b 1 false = true := by
  have h := C7_minimum_size w7a w7b 1 1 false false ⟨0, 0, 40, 200⟩ ⟨0, 0, 50, 50⟩
    rfl (by decide) (by decide)
    rfl (by decide) rfl (by decide) (by decide) (by decide) (by decide)
    (by decide) (by decide) rfl (by decide) rfl (by decide) (by decide)
  exact ⟨rfl, rfl, h.1, h.2.1⟩

end DwmSpec
